import Mathlib

set_option maxHeartbeats 1000000

/-!
Shallow embedding of the node transport layer of vscode-languageserver-node
(source file src/unnamed/part_000, plus createProtocolConnection from
src/protocol/src/common/connection.ts): the IPC reader and writer, the pipe
and loopback-socket transport bootstraps, random pipe-name generation, the
socket writer disposal, and the connection factory normalization.
-/

/-- Protocol messages are treated as abstract payloads. -/
abbrev Message := Nat

/-- Error values are treated as abstract payloads. -/
abbrev Err := Nat

/-- State of an IPCMessageWriter: its private consecutive-error counter
(field errorCount, initialized to 0 in the constructor). -/
structure IPCMessageWriter where
  errorCount : Nat
deriving Repr, DecidableEq

/-- Payload of one fireError call made by the writer: the error, the message
being written, and the error count passed along. -/
structure ErrorNotification where
  error : Err
  msg : Message
  count : Nat
deriving Repr, DecidableEq

/-- Settled state of the promise returned by write. -/
inductive PromiseResult where
  | resolved
  | rejected (e : Err)
deriving Repr, DecidableEq

/-- Behavior of the native process.send call during one write attempt, as the
surrounding code can observe it: the send member may be absent, the call may
throw synchronously, or the call is accepted and its completion callback later
reports either an error or success. -/
inductive SendBehavior where
  | noCapability
  | syncThrow (e : Err)
  | accepted (callbackError : Option Err)
deriving Repr, DecidableEq

/-- Observable outcome of one IPCMessageWriter.write call, recorded after the
send completion callback (when the send was accepted) has run: the updated
writer state, the settled state of the returned promise, the fireError
payloads emitted, and whether a native send was attempted at all. -/
structure WriteOutcome where
  writer : IPCMessageWriter
  promise : PromiseResult
  notifications : List ErrorNotification
  sendAttempted : Bool
deriving Repr, DecidableEq

/-- handleError of IPCMessageWriter: increments errorCount and fires the
error notification carrying the message and the freshly incremented count. -/
def IPCMessageWriter.handleError (w : IPCMessageWriter) (error : Err) (msg : Message) :
    IPCMessageWriter × ErrorNotification :=
  let w2 : IPCMessageWriter := { errorCount := w.errorCount + 1 }
  (w2, { error := error, msg := msg, count := w2.errorCount })

/-- IPCMessageWriter.write: when process.send is absent the call does nothing
and resolves; when the send is accepted, the completion callback either resets
errorCount to 0 on success or, on error, increments errorCount and then calls
handleError (which increments again and fires), while the promise returned by
write has already resolved; when the send throws synchronously, handleError
runs once and the promise is rejected with the thrown error. -/
def IPCMessageWriter.write (w : IPCMessageWriter) (msg : Message) (send : SendBehavior) :
    WriteOutcome :=
  match send with
  | .noCapability =>
      { writer := w, promise := .resolved, notifications := [], sendAttempted := false }
  | .syncThrow e =>
      let r := w.handleError e msg
      { writer := r.1, promise := .rejected e, notifications := [r.2], sendAttempted := true }
  | .accepted none =>
      { writer := { errorCount := 0 }, promise := .resolved, notifications := [],
        sendAttempted := true }
  | .accepted (some e) =>
      let w1 : IPCMessageWriter := { errorCount := w.errorCount + 1 }
      let r := w1.handleError e msg
      { writer := r.1, promise := .resolved, notifications := [r.2], sendAttempted := true }

/-- Notifications a channel itself can emit towards its client. -/
inductive ChannelNotification where
  | errorNote (e : Err)
  | closeNote
deriving Repr, DecidableEq

/-- Native events of the underlying process endpoint. -/
inductive NativeEvent where
  | error (e : Err)
  | close
deriving Repr, DecidableEq

/-- Handlers installed by the IPCMessageReader constructor: the error handler
calls fireError with the event payload, the close handler calls fireClose. -/
def IPCMessageReader.onNativeEvent : NativeEvent → List ChannelNotification
  | .error e => [.errorNote e]
  | .close => [.closeNote]

/-- Handlers installed by the IPCMessageWriter constructor: the error handler
calls fireError with the event payload; the close handler body is the bare
method reference this.fireClose, which is evaluated but never invoked, so the
close handler emits nothing. -/
def IPCMessageWriter.onNativeEvent : NativeEvent → List ChannelNotification
  | .error e => [.errorNote e]
  | .close => []

/- ------------------------------------------------------------------ -/
/- Theorems for claims C1, C3 and C4.                                  -/
/- ------------------------------------------------------------------ -/

/-- C1 counterexample: starting from error count 0, a single failed send
reported through the asynchronous completion callback leaves the counter at 2,
not 1, and the emitted notification carries 2; hence a consecutive failed send
does not increment the count by exactly one. -/
theorem C1_counterexample :
    (IPCMessageWriter.write { errorCount := 0 } 0 (.accepted (some 5))).writer.errorCount = 2 ∧
    (IPCMessageWriter.write { errorCount := 0 } 0 (.accepted (some 5))).writer.errorCount ≠ 1 ∧
    (IPCMessageWriter.write { errorCount := 0 } 0 (.accepted (some 5))).notifications =
      [{ error := 5, msg := 0, count := 2 }] := by
  decide

/-- C1 amended: a failed send reported through the asynchronous completion
callback increments the error count by exactly two (once in the callback and
once more inside handleError) and the notification carries that resulting
count; a synchronous send exception increments the count by exactly one and
the notification carries that resulting count; one successful send resets the
count to exactly zero; a write without send capability leaves the count
unchanged and emits nothing. -/
theorem C1_errorCount_amended (w : IPCMessageWriter) (msg : Message) (e : Err) :
    (w.write msg (.accepted (some e))).writer.errorCount = w.errorCount + 2 ∧
    (w.write msg (.accepted (some e))).notifications =
      [{ error := e, msg := msg, count := w.errorCount + 2 }] ∧
    (w.write msg (.syncThrow e)).writer.errorCount = w.errorCount + 1 ∧
    (w.write msg (.syncThrow e)).notifications =
      [{ error := e, msg := msg, count := w.errorCount + 1 }] ∧
    (w.write msg (.accepted none)).writer.errorCount = 0 ∧
    (w.write msg .noCapability).writer.errorCount = w.errorCount ∧
    (w.write msg .noCapability).notifications = [] := by
  refine ⟨?_, ?_, rfl, rfl, rfl, rfl, rfl⟩ <;>
    simp [IPCMessageWriter.write, IPCMessageWriter.handleError]

/-- C3: write with no send capability attempts no send, resolves, and emits
nothing; a synchronous send exception rejects the promise with that error and
also reports it through the error notification; an asynchronous callback
failure leaves the promise resolved and surfaces the error only through the
notification; a successful send resolves. -/
theorem C3_write_promise_behavior (w : IPCMessageWriter) (msg : Message) (e : Err) :
    (w.write msg .noCapability).sendAttempted = false ∧
    (w.write msg .noCapability).promise = .resolved ∧
    (w.write msg .noCapability).notifications = [] ∧
    (w.write msg (.syncThrow e)).promise = .rejected e ∧
    (w.write msg (.syncThrow e)).notifications.map ErrorNotification.error = [e] ∧
    (w.write msg (.accepted (some e))).promise = .resolved ∧
    (w.write msg (.accepted (some e))).notifications.map ErrorNotification.error = [e] ∧
    (w.write msg (.accepted none)).promise = .resolved := by
  exact ⟨rfl, rfl, rfl, rfl, rfl, rfl, rfl, rfl⟩

/-- C4: the reader forwards both native error and native close to its own
notifications, and the writer forwards native error; but a native close on the
writer endpoint emits no close notification, because the registered handler
body is the uninvoked method reference this.fireClose. -/
theorem C4_close_forwarding_divergence (e : Err) :
    IPCMessageReader.onNativeEvent (.error e) = [.errorNote e] ∧
    IPCMessageReader.onNativeEvent .close = [.closeNote] ∧
    IPCMessageWriter.onNativeEvent (.error e) = [.errorNote e] ∧
    IPCMessageWriter.onNativeEvent .close = [] := by
  exact ⟨rfl, rfl, rfl, rfl⟩

/- ------------------------------------------------------------------ -/
/- Client-role transport bootstrap (createClientPipeTransport and      -/
/- createClientSocketTransport share this listen-once machine).        -/
/- ------------------------------------------------------------------ -/

/-- Settled state of the outer promise returned by a client bootstrap. -/
inductive OuterState where
  | pending
  | resolved
  | rejected (e : Err)
deriving Repr, DecidableEq

/-- The channel delivered on acceptance: a SocketMessageReader and a
SocketMessageWriter, both constructed over the accepted socket. -/
structure ChannelPair where
  readerSocket : Nat
  writerSocket : Nat
deriving Repr, DecidableEq

/-- The pair built inside the acceptance callback: reader and writer share
the freshly accepted socket. -/
def mkChannel (sock : Nat) : ChannelPair :=
  { readerSocket := sock, writerSocket := sock }

/-- Settled state of the inner onConnected promise. The rejection state is
representable so that never reaching it is a fact about the dynamics, not
about the type. -/
inductive InnerState where
  | pending
  | resolvedWith (c : ChannelPair)
  | rejectedInner (e : Err)
deriving Repr, DecidableEq

/-- InnerState.isRejected tests for the rejected state. -/
def InnerState.isRejected : InnerState → Bool
  | .rejectedInner _ => true
  | _ => false

/-- InnerState.isPending tests for the pending state. -/
def InnerState.isPending : InnerState → Bool
  | .pending => true
  | _ => false

/-- State of one client bootstrap instance: whether the server is listening,
whether it has been closed, whether the error handler (the outer reject) is
still registered, the two promises, and how many channels have been delivered
to the caller. -/
structure BootstrapState where
  listening : Bool
  serverClosed : Bool
  errorHandlerInstalled : Bool
  outer : OuterState
  inner : InnerState
  produced : Nat
deriving Repr, DecidableEq

/-- Resolving a promise that is already settled is a no-op. -/
def OuterState.resolve : OuterState → OuterState
  | .pending => .resolved
  | s => s

/-- Rejecting a promise that is already settled is a no-op. -/
def OuterState.reject : OuterState → Err → OuterState
  | .pending, e => .rejected e
  | s, _ => s

/-- connectResolve: resolve the inner promise with a channel; when the promise
is still pending this delivers one more channel, otherwise nothing happens. -/
def resolveInnerState (s : BootstrapState) (c : ChannelPair) : BootstrapState :=
  match s.inner with
  | .pending => { s with inner := .resolvedWith c, produced := s.produced + 1 }
  | _ => s

/-- The two statements of the acceptance callback, in source order:
server.close() first, then connectResolve with the reader/writer pair. -/
inductive AcceptAction where
  | closeServer
  | resolveConnected (sock : Nat)
deriving Repr, DecidableEq

/-- Body of the connection callback passed to createServer, as the ordered
list of its statements. -/
def connectionCallback (sock : Nat) : List AcceptAction :=
  [.closeServer, .resolveConnected sock]

/-- Effect of one statement of the acceptance callback. -/
def applyAcceptAction (s : BootstrapState) (a : AcceptAction) : BootstrapState :=
  match a with
  | .closeServer => { s with listening := false, serverClosed := true }
  | .resolveConnected sock => resolveInnerState s (mkChannel sock)

/-- Events delivered to a client bootstrap: the listen success callback, an
error event on the server (bind failure or any later server error), and an
incoming connection accepted by the listener. -/
inductive BootstrapEvent where
  | listenOk
  | serverError (e : Err)
  | connection (sock : Nat)
deriving Repr, DecidableEq

/-- One event step of the client bootstrap. On listen success the error
handler is removed and the outer promise resolves. A server error reaches the
outer reject only while that handler is installed. A connection is accepted
only while the server is listening and not closed; the acceptance callback
then runs its statements in order: close the server, resolve the inner
promise. -/
def bootstrapStep (s : BootstrapState) (ev : BootstrapEvent) : BootstrapState :=
  match ev with
  | .listenOk =>
      { s with listening := true, errorHandlerInstalled := false, outer := s.outer.resolve }
  | .serverError e =>
      if s.errorHandlerInstalled then { s with outer := s.outer.reject e } else s
  | .connection sock =>
      if s.listening && !s.serverClosed then
        (connectionCallback sock).foldl applyAcceptAction s
      else s

/-- State right after the bootstrap body ran: callbacks registered, listen
issued but not yet completed, both promises pending, no channel yet. -/
def initialBootstrapState : BootstrapState :=
  { listening := false, serverClosed := false, errorHandlerInstalled := true,
    outer := .pending, inner := .pending, produced := 0 }

/-- Run a client bootstrap over a trace of events. -/
def runBootstrap (evs : List BootstrapEvent) : BootstrapState :=
  evs.foldl bootstrapStep initialBootstrapState

/-- Calls into the net module made by the transport entry points. -/
inductive NetCall where
  | listenPipe (path : String)
  | listenTcp (host : String) (port : Nat)
  | connectPipe (path : String)
  | connectTcp (host : String) (port : Nat)
deriving Repr, DecidableEq

/-- Host component of a tcp net call, when there is one. -/
def NetCall.host : NetCall → Option String
  | .listenTcp h _ => some h
  | .connectTcp h _ => some h
  | _ => none

/-- createClientPipeTransport: server.listen(pipeName) on a fresh bootstrap
in the initial state. -/
def createClientPipeTransport (pipeName : String) : NetCall × BootstrapState :=
  (.listenPipe pipeName, initialBootstrapState)

/-- createClientSocketTransport: server.listen(port, 127.0.0.1) on a fresh
bootstrap in the initial state. -/
def createClientSocketTransport (port : Nat) : NetCall × BootstrapState :=
  (.listenTcp "127.0.0.1" port, initialBootstrapState)

/-- createServerPipeTransport: createConnection(pipeName). -/
def createServerPipeTransport (pipeName : String) : NetCall :=
  .connectPipe pipeName

/-- createServerSocketTransport: createConnection(port, 127.0.0.1). -/
def createServerSocketTransport (port : Nat) : NetCall :=
  .connectTcp "127.0.0.1" port

/-- Invariant of a client bootstrap: at most one channel is ever delivered,
no channel is delivered while the server is still open, and the inner promise
is pending exactly while no channel has been delivered. -/
def BootInv (s : BootstrapState) : Prop :=
  s.produced ≤ 1 ∧
  (s.serverClosed = false → s.produced = 0) ∧
  (s.produced = 0 ↔ s.inner = .pending)

theorem bootInv_step (s : BootstrapState) (ev : BootstrapEvent) (h : BootInv s) :
    BootInv (bootstrapStep s ev) := by
  obtain ⟨h1, h2, h3⟩ := h
  cases ev with
  | listenOk => exact ⟨h1, h2, h3⟩
  | serverError e =>
      have hstep : bootstrapStep s (.serverError e) =
          if s.errorHandlerInstalled then { s with outer := s.outer.reject e } else s := rfl
      rw [hstep]
      split
      · exact ⟨h1, h2, h3⟩
      · exact ⟨h1, h2, h3⟩
  | connection sock =>
      by_cases hG : s.listening && !s.serverClosed
      · have hClosed : s.serverClosed = false := by
          cases hc : s.serverClosed
          · rfl
          · rw [hc] at hG; simp at hG
        have hp0 : s.produced = 0 := h2 hClosed
        have hpend : s.inner = .pending := h3.mp hp0
        simp [bootstrapStep, hG, connectionCallback, applyAcceptAction,
          resolveInnerState, hpend, BootInv, hp0]
      · simp [bootstrapStep, hG]
        exact ⟨h1, h2, h3⟩

theorem bootInv_foldl (evs : List BootstrapEvent) :
    ∀ s : BootstrapState, BootInv s → BootInv (evs.foldl bootstrapStep s) := by
  induction evs with
  | nil => intro s hs; exact hs
  | cons ev rest ih => intro s hs; exact ih _ (bootInv_step s ev hs)

theorem bootInv_run (evs : List BootstrapEvent) : BootInv (runBootstrap evs) := by
  have hinit : BootInv initialBootstrapState := by
    refine ⟨by decide, fun _ => rfl, by simp [initialBootstrapState]⟩
  exact bootInv_foldl evs initialBootstrapState hinit

/-- A step never moves the inner promise into the rejected state. -/
theorem bootstrapStep_isRejected (s : BootstrapState) (ev : BootstrapEvent) :
    ((bootstrapStep s ev).inner).isRejected = s.inner.isRejected := by
  cases ev with
  | listenOk => rfl
  | serverError e => by_cases hE : s.errorHandlerInstalled <;> simp [bootstrapStep, hE]
  | connection sock =>
      by_cases hG : s.listening && !s.serverClosed
      · cases hI : s.inner <;>
          simp [bootstrapStep, hG, connectionCallback, applyAcceptAction,
            resolveInnerState, hI, InnerState.isRejected]
      · simp [bootstrapStep, hG]

/-- Events other than a connection never touch the inner promise. -/
theorem bootstrapStep_inner_nonconnection (s : BootstrapState) (ev : BootstrapEvent)
    (h : ∀ sock, ev ≠ .connection sock) : (bootstrapStep s ev).inner = s.inner := by
  cases ev with
  | listenOk => rfl
  | serverError e => by_cases hE : s.errorHandlerInstalled <;> simp [bootstrapStep, hE]
  | connection sock => exact absurd rfl (h sock)

theorem foldl_inner_noconnection (evs : List BootstrapEvent) :
    ∀ s : BootstrapState, (∀ sock, BootstrapEvent.connection sock ∉ evs) →
      (evs.foldl bootstrapStep s).inner = s.inner := by
  induction evs with
  | nil => intro s _; rfl
  | cons ev rest ih =>
      intro s hno
      have hev : ∀ sock, ev ≠ BootstrapEvent.connection sock := by
        intro sock heq
        exact hno sock (heq ▸ List.mem_cons_self ev rest)
      have hrest : ∀ sock, BootstrapEvent.connection sock ∉ rest := by
        intro sock hmem
        exact hno sock (List.mem_cons_of_mem ev hmem)
      rw [List.foldl_cons, ih _ hrest, bootstrapStep_inner_nonconnection s ev hev]

theorem foldl_isRejected (evs : List BootstrapEvent) :
    ∀ s : BootstrapState,
      ((evs.foldl bootstrapStep s).inner).isRejected = s.inner.isRejected := by
  induction evs with
  | nil => intro s; rfl
  | cons ev rest ih =>
      intro s
      rw [List.foldl_cons, ih _, bootstrapStep_isRejected]

/- ------------------------------------------------------------------ -/
/- Theorems for claims C2, C5 and C10.                                 -/
/- ------------------------------------------------------------------ -/

/-- C2: in the acceptance callback the very first statement closes the
listening server; accepting a connection while the server is listening and
the inner promise is pending closes the server, stops listening, and resolves
the inner promise with the reader/writer pair over that connection; along any
event trace at most one channel is ever delivered; a delivered channel implies
the server is closed; once the inner promise is settled no later event changes
it; and once the server is closed a further connection event changes nothing,
so no second channel can ever be produced. -/
theorem C2_accept_once_close_first (evs : List BootstrapEvent) (s : BootstrapState)
    (sock : Nat) (c : ChannelPair) (hL : s.listening = true)
    (hC : s.serverClosed = false) (hP : s.inner = .pending) :
    (connectionCallback sock).head? = some .closeServer ∧
    (bootstrapStep s (.connection sock)).serverClosed = true ∧
    (bootstrapStep s (.connection sock)).listening = false ∧
    (bootstrapStep s (.connection sock)).inner = .resolvedWith (mkChannel sock) ∧
    (runBootstrap evs).produced ≤ 1 ∧
    ((runBootstrap evs).inner = .resolvedWith c → (runBootstrap evs).serverClosed = true) ∧
    (∀ t : BootstrapState, t.inner.isPending = false →
      ∀ ev, (bootstrapStep t ev).inner = t.inner) ∧
    (∀ t : BootstrapState, t.serverClosed = true →
      bootstrapStep t (.connection sock) = t) := by
  have hGuard : (s.listening && !s.serverClosed) = true := by
    rw [hL, hC]; rfl
  obtain ⟨h1, h2, h3⟩ := bootInv_run evs
  refine ⟨rfl, ?_, ?_, ?_, h1, ?_, ?_, ?_⟩
  · simp [bootstrapStep, hGuard, connectionCallback, applyAcceptAction, resolveInnerState, hP]
  · simp [bootstrapStep, hGuard, connectionCallback, applyAcceptAction, resolveInnerState, hP]
  · simp [bootstrapStep, hGuard, connectionCallback, applyAcceptAction, resolveInnerState, hP]
  · intro hres
    by_contra hcl
    have hcl2 : (runBootstrap evs).serverClosed = false := by
      cases hval : (runBootstrap evs).serverClosed
      · rfl
      · exact absurd hval hcl
    have := h3.mp (h2 hcl2)
    rw [hres] at this
    exact InnerState.noConfusion this
  · intro t ht ev
    cases ev with
    | listenOk => rfl
    | serverError e => by_cases hE : t.errorHandlerInstalled <;> simp [bootstrapStep, hE]
    | connection sk =>
        by_cases hG : t.listening && !t.serverClosed
        · cases hI : t.inner with
          | pending => rw [hI] at ht; exact absurd ht (by simp [InnerState.isPending])
          | resolvedWith cc =>
              simp [bootstrapStep, hG, connectionCallback, applyAcceptAction,
                resolveInnerState, hI]
          | rejectedInner e =>
              simp [bootstrapStep, hG, connectionCallback, applyAcceptAction,
                resolveInnerState, hI]
        · simp [bootstrapStep, hG]
  · intro t ht
    have : (t.listening && !t.serverClosed) = false := by rw [ht]; simp
    simp [bootstrapStep, this]

/-- C2 witness: concrete run with one accepted connection. -/
theorem C2_accept_once_close_first_witness :
    ({ listening := true, serverClosed := false, errorHandlerInstalled := false,
       outer := .resolved, inner := .pending, produced := 0 } : BootstrapState).listening
        = true ∧
    ((connectionCallback 7).head? = some .closeServer ∧
      (bootstrapStep
        { listening := true, serverClosed := false, errorHandlerInstalled := false,
          outer := .resolved, inner := .pending, produced := 0 }
        (.connection 7)).serverClosed = true ∧
      (bootstrapStep
        { listening := true, serverClosed := false, errorHandlerInstalled := false,
          outer := .resolved, inner := .pending, produced := 0 }
        (.connection 7)).listening = false ∧
      (bootstrapStep
        { listening := true, serverClosed := false, errorHandlerInstalled := false,
          outer := .resolved, inner := .pending, produced := 0 }
        (.connection 7)).inner = .resolvedWith (mkChannel 7) ∧
      (runBootstrap [.listenOk, .connection 5, .connection 6]).produced ≤ 1 ∧
      ((runBootstrap [.listenOk, .connection 5, .connection 6]).inner
          = .resolvedWith (mkChannel 5) →
        (runBootstrap [.listenOk, .connection 5, .connection 6]).serverClosed = true) ∧
      (∀ t : BootstrapState, t.inner.isPending = false →
        ∀ ev, (bootstrapStep t ev).inner = t.inner) ∧
      (∀ t : BootstrapState, t.serverClosed = true →
        bootstrapStep t (.connection 7) = t)) :=
  ⟨rfl, C2_accept_once_close_first [.listenOk, .connection 5, .connection 6]
    { listening := true, serverClosed := false, errorHandlerInstalled := false,
      outer := .resolved, inner := .pending, produced := 0 }
    7 (mkChannel 5) rfl rfl rfl⟩

/-- C5 counterexample: a bind failure (server error before the listen success
callback) rejects the outer promise with the bind error, but the error handler
is still installed afterwards, contradicting the claim that it is removed on
the failure path. -/
theorem C5_counterexample :
    (runBootstrap [.serverError 7]).outer = .rejected 7 ∧
    (runBootstrap [.serverError 7]).errorHandlerInstalled ≠ false := by
  decide

/-- C5 amended: when binding fails, the outer promise is rejected with the
bind error while the error handler remains registered; the handler is removed
only in the listen success callback, upon successful bind. -/
theorem C5_bind_failure_amended (e : Err) (s : BootstrapState) :
    (runBootstrap [.serverError e]).outer = .rejected e ∧
    (runBootstrap [.serverError e]).errorHandlerInstalled = true ∧
    (bootstrapStep s .listenOk).errorHandlerInstalled = false := by
  refine ⟨?_, rfl, rfl⟩
  rfl

/-- C10: along every event trace of a client bootstrap the inner onConnected
promise is never rejected, and along a trace containing no connection event it
stays pending. -/
theorem C10_inner_never_rejects (evs evs2 : List BootstrapEvent)
    (hno : ∀ sock, BootstrapEvent.connection sock ∉ evs2) :
    ((runBootstrap evs).inner).isRejected = false ∧
    (runBootstrap evs2).inner = .pending := by
  constructor
  · rw [runBootstrap, foldl_isRejected]
    rfl
  · rw [runBootstrap, foldl_inner_noconnection evs2 initialBootstrapState hno]
    rfl

/-- C10 witness: a trace with a connection never rejects, and a trace with a
listen success and a server error but no connection stays pending. -/
theorem C10_inner_never_rejects_witness :
    (∀ sock, BootstrapEvent.connection sock ∉
      [BootstrapEvent.listenOk, BootstrapEvent.serverError 4]) ∧
    (((runBootstrap [.listenOk, .connection 3]).inner).isRejected = false ∧
      (runBootstrap [.listenOk, .serverError 4]).inner = .pending) :=
  ⟨by intro sock; simp, C10_inner_never_rejects [.listenOk, .connection 3]
    [.listenOk, .serverError 4] (by intro sock; simp)⟩

/- ------------------------------------------------------------------ -/
/- generateRandomPipeName (claim C6).                                  -/
/- ------------------------------------------------------------------ -/

/-- Lowercase hexadecimal digit for a value below 16. -/
def hexDigit (n : Nat) : Char :=
  if n < 10 then Char.ofNat (48 + n) else Char.ofNat (87 + n)

/-- Hexadecimal rendering of one byte, two digits, as produced per byte by
Buffer.toString with the hex encoding. -/
def byteToHex (b : Nat) : String :=
  String.mk [hexDigit (b / 16 % 16), hexDigit (b % 16)]

/-- Hexadecimal rendering of a byte sequence. -/
def bytesToHex : List Nat → String
  | [] => ""
  | b :: rest => byteToHex b ++ bytesToHex rest

/-- Number of random bytes requested by generateRandomPipeName: 21. -/
def randomBytesLen : Nat := 21

/-- generateRandomPipeName: renders the random bytes as hex and returns, on
win32, a named pipe path with the vscode-jsonrpc marker and the sock tail,
and otherwise a socket file inside the system temporary directory with the
vscode marker (the tmpdir argument stands for os.tmpdir() and path.join is
modelled as slash concatenation). The random bytes come from
crypto.randomBytes, the cryptographically strong source. -/
def generateRandomPipeName (isWin32 : Bool) (tmpdir : String)
    (randomBytes : List Nat) : String :=
  let randomSuffix := bytesToHex randomBytes
  if isWin32 then
    "\\\\.\\pipe\\vscode-jsonrpc-" ++ randomSuffix ++ "-sock"
  else
    tmpdir ++ "/" ++ ("vscode-" ++ randomSuffix ++ ".sock")

theorem byteToHex_length (b : Nat) : (byteToHex b).length = 2 := rfl

theorem bytesToHex_length (bs : List Nat) : (bytesToHex bs).length = 2 * bs.length := by
  induction bs with
  | nil => rfl
  | cons b rest ih =>
      simp only [bytesToHex, String.length_append, byteToHex_length, ih, List.length_cons]
      omega

/- ------------------------------------------------------------------ -/
/- SocketMessageWriter disposal (claim C8).                            -/
/- ------------------------------------------------------------------ -/

/-- State of the node socket underlying a SocketMessageWriter, together with
a count of how many times the transport was actually torn down. -/
structure NetSocket where
  destroyed : Bool
  closeCount : Nat
deriving Repr, DecidableEq

/-- Socket.destroy of the node net module, which the code relies on: the
first call tears the transport down; on an already destroyed socket the call
is a no-op and does not throw. -/
def NetSocket.destroy (s : NetSocket) : NetSocket :=
  if s.destroyed then s else { destroyed := true, closeCount := s.closeCount + 1 }

/-- State of a SocketMessageWriter: the socket it owns. -/
structure SocketMessageWriter where
  socket : NetSocket
deriving Repr, DecidableEq

/-- Modelled from the spec: the dispose inherited from
WriteableStreamMessageWriter (common module, absent from src) releases
writer-local resources only; it never touches the underlying socket and may
be called repeatedly without throwing. -/
def SocketMessageWriter.superDispose (w : SocketMessageWriter) : SocketMessageWriter := w

/-- SocketMessageWriter.dispose: super.dispose() followed by
this.socket.destroy(). -/
def SocketMessageWriter.dispose (w : SocketMessageWriter) : SocketMessageWriter :=
  let w2 := w.superDispose
  { w2 with socket := w2.socket.destroy }

/- ------------------------------------------------------------------ -/
/- Connection factory (claim C7).                                      -/
/- ------------------------------------------------------------------ -/

/-- Structural surface of a value passed to the factory as input or output:
which of the four probed members are present on it. The fields record the
presence of the listen, read, write and end members. -/
structure StreamOrChannel where
  hasListen : Bool
  hasRead : Bool
  hasWrite : Bool
  hasEnd : Bool
deriving Repr, DecidableEq

/-- isMessageReader: the listen member is defined and the read member is
undefined. -/
def isMessageReader (value : StreamOrChannel) : Bool :=
  value.hasListen && !value.hasRead

/-- isMessageWriter: the write member is defined and the end member is
undefined. -/
def isMessageWriter (value : StreamOrChannel) : Bool :=
  value.hasWrite && !value.hasEnd

/-- Logger argument of the factory. -/
inductive Logger where
  | nullLogger
  | custom (id : Nat)
deriving Repr, DecidableEq

/-- The no-op logger substituted when none is given. -/
def NullLogger : Logger := .nullLogger

/-- A connection strategy value, abstract. -/
abbrev ConnectionStrategy := Nat

/-- Modelled from the spec: the ConnectionOptions structure of the common
module (absent from src), holding an optional connection strategy. -/
structure ConnectionOptions where
  connectionStrategy : Option ConnectionStrategy
deriving Repr, DecidableEq

/-- The options argument is either a bare strategy or a full options
structure. -/
inductive OptionsArg where
  | strategy (s : ConnectionStrategy)
  | options (o : ConnectionOptions)
deriving Repr, DecidableEq

/-- Modelled from the spec: ConnectionStrategy.is of the common module
(absent from src) recognizes a bare connection-strategy value as opposed to a
full options structure or a missing argument. -/
def ConnectionStrategy.is : Option OptionsArg → Bool
  | some (.strategy _) => true
  | _ => false

/-- The options normalization step shared by createMessageConnection and
createProtocolConnection: a bare strategy is wrapped into an options
structure as its connectionStrategy field, everything else passes through. -/
def normalizeOptions (options : Option OptionsArg) : Option OptionsArg :=
  if ConnectionStrategy.is options then
    match options with
    | some (.strategy s) => some (.options { connectionStrategy := some s })
    | o => o
  else options

/-- Reader argument handed to the external connection constructor: either the
input itself (already adapted) or the input wrapped in a StreamMessageReader. -/
inductive ReaderArg where
  | adapted (v : StreamOrChannel)
  | streamMessageReader (v : StreamOrChannel)
deriving Repr, DecidableEq

/-- Writer argument handed to the external connection constructor. -/
inductive WriterArg where
  | adapted (v : StreamOrChannel)
  | streamMessageWriter (v : StreamOrChannel)
deriving Repr, DecidableEq

/-- Arguments with which the factory delegates to the external connection
constructor. -/
structure MessageConnectionCall where
  reader : ReaderArg
  writer : WriterArg
  logger : Logger
  options : Option OptionsArg
deriving Repr, DecidableEq

/-- createMessageConnection of the node module: substitutes NullLogger when
the logger is missing, keeps an input that passes isMessageReader and wraps
any other input in a StreamMessageReader, symmetrically for the writer via
isMessageWriter, normalizes a bare strategy into an options structure, and
delegates. -/
def createMessageConnection (input output : StreamOrChannel) (logger : Option Logger)
    (options : Option OptionsArg) : MessageConnectionCall :=
  let logger := match logger with
    | none => NullLogger
    | some l => l
  let reader := if isMessageReader input then ReaderArg.adapted input
    else ReaderArg.streamMessageReader input
  let writer := if isMessageWriter output then WriterArg.adapted output
    else WriterArg.streamMessageWriter output
  { reader := reader, writer := writer, logger := logger,
    options := normalizeOptions options }

/-- Arguments with which createProtocolConnection delegates to the external
createMessageConnection of vscode-jsonrpc. -/
structure ProtocolConnectionCall where
  reader : StreamOrChannel
  writer : StreamOrChannel
  logger : Option Logger
  options : Option OptionsArg
deriving Repr, DecidableEq

/-- createProtocolConnection from src/protocol/src/common/connection.ts:
normalizes a bare strategy into an options structure and delegates, passing
reader, writer and logger through unchanged. -/
def createProtocolConnection (input output : StreamOrChannel) (logger : Option Logger)
    (options : Option OptionsArg) : ProtocolConnectionCall :=
  { reader := input, writer := output, logger := logger,
    options := normalizeOptions options }

/- ------------------------------------------------------------------ -/
/- Theorems for claims C6, C7, C8 and C9.                              -/
/- ------------------------------------------------------------------ -/

/-- C6 counterexample: with the 21 random bytes the code requests, the hex
rendering embedded in the generated name has 42 characters, not 32, so the
generated name does not have the claimed 32-hex-char form; shown concretely on
the all-zero byte vector for the win32 shape. -/
theorem C6_counterexample :
    (bytesToHex (List.replicate randomBytesLen 0)).length = 42 ∧
    (bytesToHex (List.replicate randomBytesLen 0)).length ≠ 32 ∧
    generateRandomPipeName true "/tmp" (List.replicate randomBytesLen 0) =
      "\\\\.\\pipe\\vscode-jsonrpc-" ++ bytesToHex (List.replicate randomBytesLen 0)
        ++ "-sock" := by
  refine ⟨?_, ?_, rfl⟩ <;> decide

/-- C6 amended: the name embeds 21 bytes, hence 168 bits, of randomness from
the cryptographically strong source, rendered as 42 hexadecimal characters;
on win32 the result is the pipe path with the vscode-jsonrpc marker and the
sock tail around that 42-hex-char rendering, and on all other platforms it is
the vscode-marked socket file inside the system temporary directory. -/
theorem C6_pipe_name_amended (tmpdir : String) (randomBytes : List Nat)
    (hlen : randomBytes.length = randomBytesLen) :
    (bytesToHex randomBytes).length = 42 ∧
    128 ≤ 8 * randomBytes.length ∧
    generateRandomPipeName true tmpdir randomBytes =
      "\\\\.\\pipe\\vscode-jsonrpc-" ++ bytesToHex randomBytes ++ "-sock" ∧
    generateRandomPipeName false tmpdir randomBytes =
      tmpdir ++ "/" ++ ("vscode-" ++ bytesToHex randomBytes ++ ".sock") := by
  refine ⟨?_, ?_, rfl, rfl⟩
  · rw [bytesToHex_length, hlen]
    decide
  · rw [hlen]
    decide

/-- C6 witness: the amended statement evaluated on the all-zero 21-byte
vector. -/
theorem C6_pipe_name_amended_witness :
    (List.replicate 21 0).length = randomBytesLen ∧
    ((bytesToHex (List.replicate 21 0)).length = 42 ∧
      128 ≤ 8 * (List.replicate 21 (0 : Nat)).length ∧
      generateRandomPipeName true "/tmp" (List.replicate 21 0) =
        "\\\\.\\pipe\\vscode-jsonrpc-" ++ bytesToHex (List.replicate 21 0) ++ "-sock" ∧
      generateRandomPipeName false "/tmp" (List.replicate 21 0) =
        "/tmp" ++ "/" ++ ("vscode-" ++ bytesToHex (List.replicate 21 0) ++ ".sock")) :=
  ⟨by decide, C6_pipe_name_amended "/tmp" (List.replicate 21 0) (by decide)⟩

/-- C7: the factory substitutes NullLogger exactly when the logger is missing;
an input is passed through as an already adapted reader precisely when its
listen member is present and its read member absent, and is wrapped in a
StreamMessageReader otherwise; symmetrically for the writer via the write and
end members; and passing a bare connection strategy is observably equivalent
to passing the full options structure wrapping it, both in
createMessageConnection and in createProtocolConnection. -/
theorem C7_factory_normalization (input output : StreamOrChannel) (l : Logger)
    (lo : Option Logger) (s : ConnectionStrategy) (o : Option OptionsArg) :
    (createMessageConnection input output none o).logger = NullLogger ∧
    (createMessageConnection input output (some l) o).logger = l ∧
    ((createMessageConnection input output lo o).reader = .adapted input ↔
      (input.hasListen = true ∧ input.hasRead = false)) ∧
    ((createMessageConnection input output lo o).reader = .streamMessageReader input ↔
      isMessageReader input = false) ∧
    ((createMessageConnection input output lo o).writer = .adapted output ↔
      (output.hasWrite = true ∧ output.hasEnd = false)) ∧
    ((createMessageConnection input output lo o).writer = .streamMessageWriter output ↔
      isMessageWriter output = false) ∧
    createMessageConnection input output lo (some (.strategy s)) =
      createMessageConnection input output lo
        (some (.options { connectionStrategy := some s })) ∧
    createProtocolConnection input output lo (some (.strategy s)) =
      createProtocolConnection input output lo
        (some (.options { connectionStrategy := some s })) := by
  obtain ⟨il, ir, iw, ie⟩ := input
  obtain ⟨ol, orr, ow, oe⟩ := output
  refine ⟨rfl, rfl, ?_, ?_, ?_, ?_, rfl, rfl⟩ <;>
    cases il <;> cases ir <;> cases ow <;> cases oe <;>
      simp [createMessageConnection, isMessageReader, isMessageWriter]

/-- C8: for a writer over a live socket, disposing twice does not throw (both
calls are defined), the socket ends up destroyed, the transport is torn down
exactly once, and the second dispose changes nothing. -/
theorem C8_double_dispose (w : SocketMessageWriter)
    (hd : w.socket.destroyed = false) (hc : w.socket.closeCount = 0) :
    (w.dispose).socket.destroyed = true ∧
    (w.dispose).socket.closeCount = 1 ∧
    ((w.dispose).dispose).socket.closeCount = 1 ∧
    (w.dispose).dispose = w.dispose := by
  refine ⟨?_, ?_, ?_, ?_⟩ <;>
    simp [SocketMessageWriter.dispose, SocketMessageWriter.superDispose,
      NetSocket.destroy, hd, hc]

/-- C8 witness: the double dispose evaluated on a live socket. -/
theorem C8_double_dispose_witness :
    ({ socket := { destroyed := false, closeCount := 0 } }
        : SocketMessageWriter).socket.destroyed = false ∧
    (({ socket := { destroyed := false, closeCount := 0 } }
        : SocketMessageWriter).dispose.socket.destroyed = true ∧
      ({ socket := { destroyed := false, closeCount := 0 } }
        : SocketMessageWriter).dispose.socket.closeCount = 1 ∧
      (({ socket := { destroyed := false, closeCount := 0 } }
        : SocketMessageWriter).dispose.dispose).socket.closeCount = 1 ∧
      ({ socket := { destroyed := false, closeCount := 0 } }
        : SocketMessageWriter).dispose.dispose =
        ({ socket := { destroyed := false, closeCount := 0 } }
          : SocketMessageWriter).dispose) :=
  ⟨rfl, C8_double_dispose { socket := { destroyed := false, closeCount := 0 } } rfl rfl⟩

/-- C9: for every caller-supplied port, createClientSocketTransport binds its
listener to 127.0.0.1 with that port and createServerSocketTransport dials
127.0.0.1 with that port; the host of either tcp call is always 127.0.0.1. -/
theorem C9_loopback_only (port : Nat) :
    (createClientSocketTransport port).1 = .listenTcp "127.0.0.1" port ∧
    createServerSocketTransport port = .connectTcp "127.0.0.1" port ∧
    ((createClientSocketTransport port).1).host = some "127.0.0.1" ∧
    (createServerSocketTransport port).host = some "127.0.0.1" := by
  exact ⟨rfl, rfl, rfl, rfl⟩
